import Mathlib

/-!
Verification development for the TikTok Recipe Backend extraction orchestrator
(Supabase edge functions: POST /extract, GET /result, POST /apify-webhook).

The TypeScript handlers are shallowly embedded as pure Lean functions.  Every
external I/O boundary (oEmbed fetch, Apify run/dataset fetch, AI normalization,
actor trigger) is passed in as an explicit parameter holding that call's
outcome, and the Supabase cache table is modelled as an association list with
column-wise upsert semantics.  JavaScript truthiness on strings (only the empty
string is falsy) and the source's asString/asNumber coercions are modelled
explicitly.
-/

/-! ## JavaScript-flavoured string primitives

The handlers run on Deno, so string tests follow JavaScript semantics. These
helpers mirror the exact operations the source uses: includes, endsWith,
toLowerCase, trim, and the truthiness of optional strings and of the or-chains
built with the JS or-operator on strings and numbers.  Characters model UTF-16
code points, which agrees with JavaScript on the basic multilingual plane. -/

/-- Whether the first list is a prefix of the second, char by char. -/
def hasPrefixChars : List Char → List Char → Bool
  | [], _ => true
  | _ :: _, [] => false
  | a :: as, b :: bs => a = b && hasPrefixChars as bs

/-- Whether the needle occurs contiguously anywhere in the haystack. -/
def hasSubstrChars (needle : List Char) : List Char → Bool
  | [] => hasPrefixChars needle []
  | c :: rest => hasPrefixChars needle (c :: rest) || hasSubstrChars needle rest

/-- Model of JavaScript s.includes(sub). -/
def jsIncludes (s sub : String) : Bool :=
  hasSubstrChars sub.data s.data

/-- Model of JavaScript s.endsWith(suffix). -/
def jsEndsWith (s suffix : String) : Bool :=
  hasPrefixChars suffix.data.reverse s.data.reverse

/-- Whitespace recognised by the trim model (ASCII subset of JS trimming). -/
def isJsSpace (c : Char) : Bool :=
  c = ' ' || c = '\t' || c = '\n' || c = '\r'

/-- Model of JavaScript s.trim() over the character list. -/
def jsTrimChars (cs : List Char) : List Char :=
  ((cs.dropWhile isJsSpace).reverse.dropWhile isJsSpace).reverse

/-- Model of JavaScript s.trim(). -/
def jsTrim (s : String) : String :=
  String.mk (jsTrimChars s.data)

/-- Model of JavaScript s.toLowerCase() (ASCII case mapping). -/
def jsToLower (s : String) : String :=
  String.mk (s.data.map Char.toLower)

/-- JavaScript truthiness of an optional string: absent and empty are falsy. -/
def jsTruthy : Option String → Bool
  | none => false
  | some s => s ≠ ""

/-- JavaScript or-operator on optional strings: the empty string is falsy and
falls through to the right operand. -/
def jsor (a b : Option String) : Option String :=
  match a with
  | none => b
  | some s => if s = "" then b else some s

/-- JavaScript or-operator against a string default. -/
def jsorD (a : Option String) (d : String) : String :=
  match a with
  | none => d
  | some s => if s = "" then d else s

/-- JavaScript or-operator on optional numbers: zero is falsy and falls
through to the right operand. -/
def jsorNum (a b : Option Nat) : Option Nat :=
  match a with
  | none => b
  | some n => if n = 0 then b else some n

/-- JavaScript nullish coalescing: only absence falls through (zero is kept). -/
def optOr {α : Type} (a b : Option α) : Option α :=
  match a with
  | none => b
  | some x => some x

/-- Model of asString in apify-webhook/index.ts: keeps a string only when its
trimmed form is non-empty, returning the original (untrimmed) string. -/
def asString (v : Option String) : Option String :=
  match v with
  | none => none
  | some s => if 0 < (jsTrim s).data.length then some s else none

/-! ## Data model (types.ts)

CacheStatus, CacheError, CacheMeta and the cache row mirror the shared type
definitions.  The recipe value is produced by the external normalizer and is
treated opaquely by both handlers (they store it and echo it back; only its
title is logged), so only its identity fields are carried. -/

/-- Job status stored in the cache table. -/
inductive CacheStatus
  | PENDING
  | READY
  | FAILED
deriving DecidableEq, Repr

/-- Structured error stored with FAILED rows ({type, message}). -/
structure CacheError where
  type : String
  message : String
deriving DecidableEq, Repr

/-- Per-phase timing fields nested inside meta. -/
structure Timings where
  oembed_ms : Option Nat := none
  openai_ms : Option Nat := none
  gemini_ms : Option Nat := none
  apify_ms : Option Nat := none
deriving DecidableEq, Repr

/-- Diagnostic meta JSON blob accreted onto a cache row; absent JSON keys are
modelled as none. -/
structure CacheMeta where
  source_url : Option String := none
  caption : Option String := none
  transcript : Option String := none
  actorRunId : Option String := none
  datasetId : Option String := none
  model : Option String := none
  ai_provider : Option String := none
  platform : Option String := none
  source : Option String := none
  author : Option String := none
  author_url : Option String := none
  creator_handle : Option String := none
  thumbnail_url : Option String := none
  thumbnail_width : Option Nat := none
  thumbnail_height : Option Nat := none
  timings : Timings := {}
deriving DecidableEq, Repr

/-- Normalized recipe value; opaque to the orchestrator apart from identity. -/
structure Recipe where
  id : String
  source_url : String
  title : String
deriving DecidableEq, Repr

/-- One row of the cache table. -/
structure CacheRow where
  status : CacheStatus
  value : Option Recipe := none
  meta : Option CacheMeta := none
  error : Option CacheError := none
deriving DecidableEq, Repr

/-- The cache table keyed by canonical video id. -/
abbrev Store := List (String × CacheRow)

/-- Columns supplied to a Supabase upsert call; a none column is not part of
the write and keeps its previous content on conflict. -/
structure UpsertFields where
  status : CacheStatus
  value : Option Recipe := none
  meta : Option CacheMeta := none
  error : Option CacheError := none
deriving DecidableEq, Repr

/-- Column-wise effect of upserting over an existing row (or none). -/
def applyPatch (old : Option CacheRow) (p : UpsertFields) : CacheRow :=
  match old with
  | none => { status := p.status, value := p.value, meta := p.meta, error := p.error }
  | some r =>
      { status := p.status
        value := optOr p.value r.value
        meta := optOr p.meta r.meta
        error := optOr p.error r.error }

/-- Point read of the cache table (maybeSingle on key equality). -/
def Store.get : Store → String → Option CacheRow
  | [], _ => none
  | (k', r) :: rest, k => if k' = k then some r else Store.get rest k

/-- Upsert by key with column-wise merge on conflict. -/
def Store.upsert : Store → String → UpsertFields → Store
  | [], k, p => [(k, applyPatch none p)]
  | (k', r) :: rest, k, p =>
      if k' = k then (k', applyPatch (some r) p) :: rest
      else (k', r) :: Store.upsert rest k p

/-! ## Environment configuration

One record for every environment variable the handlers read.  The source reads
these dynamically per request; a missing or empty variable fails its truthiness
check, which jsTruthy captures. -/

/-- Process environment as visible to the edge functions. -/
structure Env where
  supabaseUrl : Option String := none
  supabaseServiceKey : Option String := none
  apifyToken : Option String := none
  apifyActorId : Option String := none
  webhookSecret : Option String := none
  aiProviderVar : Option String := none
  openaiKey : Option String := none
  geminiKey : Option String := none
deriving DecidableEq, Repr

/-! ## Identity resolver (urlParsing.ts)

The handlers construct a URL object from the raw request string via the
runtime URL parser; that parser is external, so the already-parsed fields are
the model's input (none models a parse that threw). -/

/-- Parsed pieces of a URL as the validators consume them. -/
structure UrlObj where
  hostname : String
  pathname : String
  hasVParam : Bool := false
deriving DecidableEq, Repr

/-- Supported platforms. -/
inductive Platform
  | tiktok
  | youtube
deriving DecidableEq, Repr

/-- Domain test shared by both validators: equal to a listed domain or a
subdomain of one. -/
def domainMatches (host : String) (ds : List String) : Bool :=
  ds.any (fun d => host = d || jsEndsWith host ("." ++ d))

/-- Valid TikTok host names (urlParsing.ts). -/
def tiktokValidDomains : List String :=
  ["tiktok.com", "www.tiktok.com", "vm.tiktok.com", "vt.tiktok.com", "m.tiktok.com"]

/-- Valid YouTube host names (urlParsing.ts). -/
def youtubeValidDomains : List String :=
  ["youtube.com", "www.youtube.com", "youtu.be", "m.youtube.com"]

/-- Model of isValidTikTokUrl. -/
def isValidTikTokUrl (u : UrlObj) : Bool :=
  if ¬ domainMatches u.hostname tiktokValidDomains then false
  else
    jsIncludes u.pathname ("/video/") || jsIncludes u.pathname ("/v/") ||
      jsIncludes u.hostname ("vm.tiktok") || jsIncludes u.hostname ("vt.tiktok")

/-- Model of isValidYouTubeUrl. -/
def isValidYouTubeUrl (u : UrlObj) : Bool :=
  if ¬ domainMatches u.hostname youtubeValidDomains then false
  else if u.hostname = ("youtu.be") then decide (1 < u.pathname.data.length)
  else
    jsIncludes u.pathname ("/watch") || jsIncludes u.pathname ("/embed/") ||
      jsIncludes u.pathname ("/v/") || jsIncludes u.pathname ("/shorts/") || u.hasVParam

/-- Model of parseVideoUrl: platform classification only; the provisional
videoId it stores for YouTube is never consumed downstream (the handler uses
the oEmbed-derived id instead). -/
def parseVideoUrl (u : Option UrlObj) : Option Platform :=
  match u with
  | none => none
  | some uo =>
      if isValidTikTokUrl uo then some .tiktok
      else if isValidYouTubeUrl uo then some .youtube
      else none

/-! ## Metadata fetcher results (oembed.ts / youtubeOembed.ts) -/

/-- oEmbed payload fields the handlers consume. -/
structure OEmbedData where
  title : Option String := none
  description : Option String := none
  author_name : Option String := none
  author_url : Option String := none
  author_unique_id : Option String := none
  thumbnail_url : Option String := none
  thumbnail_width : Option Nat := none
  thumbnail_height : Option Nat := none
  embed_product_id : Option String := none
deriving DecidableEq, Repr

/-- Model of extractCaption: trimmed title when non-blank, else trimmed
description when non-blank, else none. -/
def extractCaption (od : OEmbedData) : Option String :=
  match od.title with
  | some t =>
      if jsTrim t ≠ "" then some (jsTrim t)
      else
        match od.description with
        | some d => if jsTrim d ≠ "" then some (jsTrim d) else none
        | none => none
  | none =>
      match od.description with
      | some d => if jsTrim d ≠ "" then some (jsTrim d) else none
      | none => none

/-- Minimum caption length for the recipe heuristic (constants.ts). -/
def MIN_RECIPE_CAPTION_LENGTH : Nat := 20

/-- Minimum number of matched keywords for the recipe heuristic
(constants.ts). -/
def MIN_RECIPE_KEYWORD_MATCHES : Nat := 3

/-- Fixed recipe indicator keyword list (oembed.ts, looksLikeRecipe). -/
def recipeKeywords : List String :=
  ["recipe", "ingredient", "cook", "bake", "prep", "serve",
   "mix", "stir", "heat", "add", "combine", "whisk", "chop",
   "cup", "tbsp", "tsp", "oz", "gram", "ml", "tablespoon", "teaspoon",
   "minutes", "min", "hour", "temperature", "degrees", "°",
   "salt", "pepper", "oil", "butter", "garlic", "onion"]

/-- Model of looksLikeRecipe: length floor on the trimmed caption, then a
keyword-count threshold over case-insensitive substring matches. -/
def looksLikeRecipe (caption : String) : Bool :=
  if (jsTrim caption).data.length < MIN_RECIPE_CAPTION_LENGTH then false
  else
    let lower := jsToLower caption
    let matchCount := (recipeKeywords.filter (fun kw => jsIncludes lower kw)).length
    decide (MIN_RECIPE_KEYWORD_MATCHES ≤ matchCount)

/-- Model of shouldNormalizeFromCaption: falsy captions go to the transcript
path, others are gated by looksLikeRecipe. -/
def shouldNormalizeFromCaption (caption : Option String) : Bool :=
  match caption with
  | none => false
  | some s => if s = "" then false else looksLikeRecipe s

/-- Gate condition written from the claim: the trimmed caption has at least
MIN_RECIPE_CAPTION_LENGTH characters and at least MIN_RECIPE_KEYWORD_MATCHES
distinct keywords of the fixed list occur in the caption case-insensitively. -/
def recipeGateSpec (c : String) : Prop :=
  MIN_RECIPE_CAPTION_LENGTH ≤ (jsTrim c).data.length ∧
    MIN_RECIPE_KEYWORD_MATCHES ≤
      (recipeKeywords.filter (fun kw => jsIncludes (jsToLower c) kw)).length

instance (c : String) : Decidable (recipeGateSpec c) := by
  unfold recipeGateSpec
  infer_instance

/-- Model of extractVideoIdFromThumbnail over characters: the thumbnail URL
must contain a "/vi/" segment followed by a non-empty run of non-slash
characters and a closing slash; the search continues past non-matching
occurrences exactly as the anchored-scan of the source regex does. -/
def viSegmentScan : List Char → Option String
  | [] => none
  | c :: rest =>
      if hasPrefixChars ("/vi/").data (c :: rest) then
        let after := (c :: rest).drop 4
        let idChars := after.takeWhile (fun ch => ch ≠ '/')
        if idChars ≠ [] ∧ idChars.length < after.length then some (String.mk idChars)
        else viSegmentScan rest
      else viSegmentScan rest

/-- Model of extractVideoIdFromThumbnail. -/
def extractVideoIdFromThumbnail (thumbnailUrl : String) : Option String :=
  viSegmentScan thumbnailUrl.data

/-- Model of getVideoIdFromOEmbed: requires a thumbnail URL, then pattern
matches the video id out of it. -/
def getVideoIdFromOEmbed (od : OEmbedData) : Option String :=
  match od.thumbnail_url with
  | none => none
  | some t => extractVideoIdFromThumbnail t

/-! ## Provider router (aiProvider.ts)

getAIProvider is a pure function of platform and environment.  The actual
network normalization calls are external; the models below return the routing
decision together with the list of provider network calls performed, so that
"no call was made" and "no fallback was attempted" are statable. -/

/-- Closed set of AI normalization providers. -/
inductive AIProviderTag
  | openai
  | gemini
deriving DecidableEq, Repr

/-- String form stored into meta.ai_provider. -/
def AIProviderTag.str : AIProviderTag → String
  | .openai => "openai"
  | .gemini => "gemini"

/-- Model of getAIProvider: YouTube is pinned to Gemini with no fallback;
TikTok follows the AI_PROVIDER switch, defaulting to OpenAI; a missing key
for the selected provider raises a missing-credential error. -/
def getAIProvider (env : Env) (platform : Platform) : Except String (AIProviderTag × String) :=
  match platform with
  | .youtube =>
      if ¬ jsTruthy env.geminiKey then
        .error ("GEMINI_API_KEY is required for YouTube videos")
      else .ok (.gemini, env.geminiKey.getD "")
  | .tiktok =>
      let preferred := jsToLower (jsorD env.aiProviderVar ("openai"))
      if preferred = ("gemini") then
        if ¬ jsTruthy env.geminiKey then
          .error ("GEMINI_API_KEY is required when AI_PROVIDER=gemini")
        else .ok (.gemini, env.geminiKey.getD "")
      else
        if ¬ jsTruthy env.openaiKey then
          .error ("OPENAI_API_KEY is required when AI_PROVIDER=openai or not set")
        else .ok (.openai, env.openaiKey.getD "")

/-- Outcome of one external AI normalization network call. -/
inductive NormOutcome
  | ok (recipe : Recipe) (model : String) (elapsed_ms : Nat)
  | fail (msg : String)
deriving DecidableEq, Repr

/-- Model of aiProvider.ts normalizeRecipe: route first, then perform exactly
one network call to the routed provider; a routing failure performs no call.
Returns the result together with the provider calls made. -/
def normalizeRecipeM (env : Env) (platform : Platform) (outcome : NormOutcome) :
    Except String (Recipe × String × Nat × AIProviderTag) × List AIProviderTag :=
  match getAIProvider env platform with
  | .error e => (.error e, [])
  | .ok (p, _) =>
      match outcome with
      | .ok r m ms => (.ok (r, m, ms, p), [p])
      | .fail msg => (.error msg, [p])

/-- Model of normalizeYouTubeVideo: checks the Gemini credential itself before
any network call and then always calls Gemini. -/
def normalizeYouTubeVideoM (env : Env) (outcome : NormOutcome) :
    Except String (Recipe × String × Nat × AIProviderTag) × List AIProviderTag :=
  if ¬ jsTruthy env.geminiKey then
    (.error ("GEMINI_API_KEY is required for YouTube videos"), [])
  else
    match outcome with
    | .ok r m ms => (.ok (r, m, ms, .gemini), [.gemini])
    | .fail msg => (.error msg, [.gemini])

/-- Model of verifyWebhookSecret over the already-extracted query parameter:
absent or empty fails, otherwise plain equality with the configured value. -/
def verifyWebhookSecret (reqSecret : Option String) (expected : String) : Bool :=
  match reqSecret with
  | none => false
  | some s => s ≠ "" && s = expected

/-! ## Async completion handler (apify-webhook/index.ts)

The webhook body and the fetched dataset items are dynamically-typed JSON in
the source; the model carries exactly the fields the handler ever reads, with
the author and covers fields split by the JSON shape the asString/asRecord
coercions distinguish. -/

/-- Author sub-object shapes the handler probes (author / authorMeta). -/
structure AuthorObj where
  name : Option String := none
  nickname : Option String := none
  uniqueId : Option String := none
  id : Option String := none
  url : Option String := none
  profileUrl : Option String := none
deriving DecidableEq, Repr

/-- Covers sub-object shape the handler probes. -/
structure CoversObj where
  origin : Option String := none
  dynamic : Option String := none
  static : Option String := none
  width : Option Nat := none
  height : Option Nat := none
deriving DecidableEq, Repr

/-- One item of the fetched Apify dataset, restricted to the keys the handler
reads.  The dynamic author key is split into authorStr (when the JSON value is
a string) and authorObj (when it is an object). -/
structure DatasetItem where
  id : Option String := none
  videoId : Option String := none
  key : Option String := none
  caption : Option String := none
  text : Option String := none
  description : Option String := none
  transcript : Option String := none
  subtitles : Option String := none
  videoTranscript : Option String := none
  url : Option String := none
  videoUrl : Option String := none
  href : Option String := none
  authorName : Option String := none
  authorStr : Option String := none
  authorObj : Option AuthorObj := none
  authorMeta : Option AuthorObj := none
  creator : Option String := none
  nickname : Option String := none
  authorUniqueId : Option String := none
  creatorHandle : Option String := none
  authorUrl : Option String := none
  authorLink : Option String := none
  thumbnailUrl : Option String := none
  cover : Option String := none
  videoCover : Option String := none
  dynamicCover : Option String := none
  coverUrl : Option String := none
  covers : Option CoversObj := none
  thumbnailWidth : Option Nat := none
  width : Option Nat := none
  thumbnailHeight : Option Nat := none
  height : Option Nat := none
deriving DecidableEq, Repr

/-- Webhook request body (ApifyWebhookPayload plus the datasetId field the
handler reads dynamically). -/
structure ApifyWebhookPayload where
  datasetId : Option String := none
  actorRunId : Option String := none
  source_url : Option String := none
  caption : Option String := none
  transcript : Option String := none
deriving DecidableEq, Repr

/-- Canonical key from the first dataset item: id, then videoId, then key. -/
def extractItemKey (it : DatasetItem) : Option String :=
  jsor (asString it.id) (jsor (asString it.videoId) (asString it.key))

/-- Caption from the first dataset item: caption, text, description. -/
def itemCaption (it : DatasetItem) : Option String :=
  jsor (asString it.caption) (jsor (asString it.text) (asString it.description))

/-- Transcript from the first dataset item: transcript, subtitles,
videoTranscript. -/
def itemTranscript (it : DatasetItem) : Option String :=
  jsor (asString it.transcript) (jsor (asString it.subtitles) (asString it.videoTranscript))

/-- Author object probed from author then authorMeta. -/
def itemAuthorObj (it : DatasetItem) : Option AuthorObj :=
  optOr it.authorObj it.authorMeta

/-- Author display name fallback chain. -/
def datasetAuthor (it : DatasetItem) : Option String :=
  let aObj := itemAuthorObj it
  jsor (asString it.authorName)
    (jsor (asString it.authorStr)
      (jsor (asString it.creator)
        (jsor (asString it.nickname)
          (jsor (asString (aObj.bind (fun o => o.name)))
            (asString (aObj.bind (fun o => o.nickname)))))))

/-- Creator handle fallback chain. -/
def datasetCreatorHandle (it : DatasetItem) : Option String :=
  let aObj := itemAuthorObj it
  jsor (asString it.authorUniqueId)
    (jsor (asString it.creatorHandle)
      (jsor (asString (aObj.bind (fun o => o.uniqueId)))
        (asString (aObj.bind (fun o => o.id)))))

/-- Author profile URL fallback chain. -/
def datasetAuthorUrl (it : DatasetItem) : Option String :=
  let aObj := itemAuthorObj it
  jsor (asString it.authorUrl)
    (jsor (asString it.authorLink)
      (jsor (asString (aObj.bind (fun o => o.url)))
        (asString (aObj.bind (fun o => o.profileUrl)))))

/-- Thumbnail URL fallback chain. -/
def datasetThumbnailUrl (it : DatasetItem) : Option String :=
  jsor (asString it.thumbnailUrl)
    (jsor (asString it.cover)
      (jsor (asString it.videoCover)
        (jsor (asString it.dynamicCover)
          (jsor (asString it.coverUrl)
            (jsor (asString (it.covers.bind (fun c => c.origin)))
              (jsor (asString (it.covers.bind (fun c => c.dynamic)))
                (asString (it.covers.bind (fun c => c.static)))))))))

/-- Thumbnail width fallback chain (JS or-chains treat zero as falsy). -/
def datasetThumbnailWidth (it : DatasetItem) : Option Nat :=
  jsorNum (it.thumbnailWidth) (jsorNum (it.width) (it.covers.bind (fun c => c.width)))

/-- Thumbnail height fallback chain. -/
def datasetThumbnailHeight (it : DatasetItem) : Option Nat :=
  jsorNum (it.thumbnailHeight) (jsorNum (it.height) (it.covers.bind (fun c => c.height)))

/-- Dataset id resolution outcome. -/
inductive DatasetIdResult
  | ok (id : String)
  | badRequest
  | serverError
deriving DecidableEq, Repr

/-- Fallback lookup of the dataset id through the actor-run fetch: fetchRun is
the outcome of the external GET of the actor run (none models an HTTP failure,
some d a successful response with defaultDatasetId d). -/
def resolveFromRun (payload : ApifyWebhookPayload) (fetchRun : Option (Option String)) :
    DatasetIdResult :=
  if ¬ jsTruthy payload.actorRunId then .badRequest
  else
    match fetchRun with
    | none => .serverError
    | some d => if jsTruthy d then .ok (d.getD "") else .badRequest

/-- Dataset id from the payload when truthy, otherwise from the actor run. -/
def resolveDatasetId (payload : ApifyWebhookPayload) (fetchRun : Option (Option String)) :
    DatasetIdResult :=
  if jsTruthy payload.datasetId then .ok (payload.datasetId.getD "")
  else resolveFromRun payload fetchRun

/-- Result of one webhook delivery: HTTP status, cache table afterwards, and
how many times the normalizer was invoked during the request. -/
structure WebhookResult where
  status : Nat
  store : Store
  normCalls : Nat
deriving DecidableEq, Repr

/-- Processing of the first dataset item (everything after the dataset fetch):
key extraction, the no-content FAILED write, the idempotency check, the
credential checks, the meta merge and the READY/FAILED terminal write.  The
normResult parameter is the outcome of the external OpenAI call, consumed only
if the handler reaches the normalization step. -/
def processFirstItem (env : Env) (payload : ApifyWebhookPayload) (dsId : String)
    (item : DatasetItem) (normResult : NormOutcome) (store : Store) : WebhookResult :=
  match extractItemKey item with
  | none => ⟨400, store, 0⟩
  | some key =>
      let caption := itemCaption item
      let transcript := itemTranscript item
      if caption = none ∧ transcript = none then
        if jsTruthy env.supabaseUrl ∧ jsTruthy env.supabaseServiceKey then
          ⟨400,
            Store.upsert store key
              { status := .FAILED
                error := some ⟨"apify_no_content", "Apify returned no caption or transcript"⟩
                meta := some { actorRunId := payload.actorRunId, source_url := payload.source_url } },
            0⟩
        else ⟨400, store, 0⟩
      else if ¬ (jsTruthy env.supabaseUrl ∧ jsTruthy env.supabaseServiceKey) then
        ⟨500, store, 0⟩
      else
        let existing := Store.get store key
        let existingMeta := (existing.bind (fun r => r.meta)).getD {}
        if existing.map (fun r => r.status) = some .READY then ⟨200, store, 0⟩
        else if ¬ jsTruthy env.openaiKey then
          ⟨500,
            Store.upsert store key
              { status := .FAILED
                error := some ⟨"config_error", "OpenAI API key not configured"⟩ },
            0⟩
        else
          let resolvedSourceUrl :=
            jsorD
              (jsor payload.source_url
                (jsor (asString item.url)
                  (jsor (asString item.videoUrl)
                    (jsor (asString item.href) existingMeta.source_url))))
              ("https://www.tiktok.com/video/" ++ key)
          let author := jsor (datasetAuthor item) existingMeta.author
          let authorUrl := jsor (datasetAuthorUrl item) existingMeta.author_url
          let creatorHandle := jsor (datasetCreatorHandle item) existingMeta.creator_handle
          let thumbnailUrl := jsor (datasetThumbnailUrl item) existingMeta.thumbnail_url
          let thumbnailWidth := optOr (datasetThumbnailWidth item) existingMeta.thumbnail_width
          let thumbnailHeight := optOr (datasetThumbnailHeight item) existingMeta.thumbnail_height
          match normResult with
          | .ok recipe mdl ms =>
              let updatedMeta : CacheMeta :=
                { existingMeta with
                  source_url := some resolvedSourceUrl
                  caption := caption
                  transcript := transcript
                  actorRunId := jsor payload.actorRunId existingMeta.actorRunId
                  datasetId := jsor (some dsId) existingMeta.datasetId
                  model := some mdl
                  source := some ("transcript")
                  author := author
                  author_url := authorUrl
                  creator_handle := creatorHandle
                  thumbnail_url := thumbnailUrl
                  thumbnail_width := thumbnailWidth
                  thumbnail_height := thumbnailHeight
                  timings := { existingMeta.timings with openai_ms := some ms } }
              ⟨200,
                Store.upsert store key
                  { status := .READY, value := some recipe, meta := some updatedMeta },
                1⟩
          | .fail msg =>
              ⟨500,
                Store.upsert store key
                  { status := .FAILED
                    error := some ⟨"normalization_error", msg⟩
                    meta := some
                      { source_url := payload.source_url
                        caption := payload.caption
                        transcript := payload.transcript
                        actorRunId := payload.actorRunId } },
                1⟩

/-- Model of the apify-webhook request handler.  reqSecret is the secret query
parameter; fetchRun and fetchDataset are the outcomes of the two external
Apify fetches (none models an HTTP-level failure); database writes are assumed
to succeed (write errors only rethrow into the generic 500 path). -/
def apifyWebhook (env : Env) (method : String) (reqSecret : Option String)
    (payload : ApifyWebhookPayload) (fetchRun : Option (Option String))
    (fetchDataset : Option (List DatasetItem)) (normResult : NormOutcome)
    (store : Store) : WebhookResult :=
  if method = ("OPTIONS") then ⟨204, store, 0⟩
  else if method ≠ ("POST") then ⟨405, store, 0⟩
  else if ¬ jsTruthy env.webhookSecret then ⟨500, store, 0⟩
  else if ¬ verifyWebhookSecret reqSecret (env.webhookSecret.getD "") then ⟨401, store, 0⟩
  else if ¬ jsTruthy env.apifyToken then ⟨500, store, 0⟩
  else
    match resolveDatasetId payload fetchRun with
    | .badRequest => ⟨400, store, 0⟩
    | .serverError => ⟨500, store, 0⟩
    | .ok dsId =>
        match fetchDataset with
        | none => ⟨500, store, 0⟩
        | some items =>
            match items with
            | [] => ⟨400, store, 0⟩
            | firstItem :: _ => processFirstItem env payload dsId firstItem normResult store

/-! ## Orchestrator (POST /extract)

The handler is embedded with its external calls as parameters: the URL parse,
the two oEmbed fetches, the AI outcome for whichever provider gets routed, and
the Apify trigger outcome.  The result records the provider network calls made
and whether the Apify trigger was attempted, so the routing policy claims are
statable. -/

/-- Outcome of the external Apify actor trigger. -/
inductive TriggerOutcome
  | ok (runId : String)
  | fail (msg : String)
deriving DecidableEq, Repr

/-- Result of one /extract request. -/
structure ExtractResult where
  status : Nat
  value : Option Recipe := none
  error : Option CacheError := none
  store : Store
  providerCalls : List AIProviderTag := []
  apifyAttempts : Nat := 0
deriving DecidableEq, Repr

/-- Slow transcript path of /extract: configuration check, Apify trigger,
PENDING write on success, FAILED write on trigger failure.  calls carries the
provider calls already made by a failed fast-path attempt. -/
def extractApifyPath (env : Env) (url : String) (videoId : String)
    (od : OEmbedData) (caption : Option String) (trigger : TriggerOutcome)
    (store : Store) (calls : List AIProviderTag) : ExtractResult :=
  if ¬ (jsTruthy env.apifyToken ∧ jsTruthy env.apifyActorId ∧ jsTruthy env.webhookSecret) then
    { status := 500, store := store, providerCalls := calls }
  else
    match trigger with
    | .ok runId =>
        let meta : CacheMeta :=
          { source_url := some url
            caption := caption
            actorRunId := some runId
            author := od.author_name
            author_url := od.author_url
            creator_handle := od.author_unique_id
            thumbnail_url := od.thumbnail_url
            thumbnail_width := od.thumbnail_width
            thumbnail_height := od.thumbnail_height }
        { status := 202
          store := Store.upsert store videoId { status := .PENDING, meta := some meta }
          providerCalls := calls
          apifyAttempts := 1 }
    | .fail msg =>
        { status := 500
          store :=
            Store.upsert store videoId
              { status := .FAILED
                error := some ⟨"apify_error", msg⟩
                meta := some { source_url := some url, caption := caption } }
          providerCalls := calls
          apifyAttempts := 1 }

/-- Fresh TikTok processing (cache miss or forced retry of a FAILED row): the
opportunistic caption fast path guarded by the recipe heuristic, falling
through to the slow transcript path when the gate rejects or the normalizer
errors. -/
def extractTikTokFresh (env : Env) (url : String) (videoId : String)
    (od : OEmbedData) (normOutcome : NormOutcome) (trigger : TriggerOutcome)
    (store : Store) : ExtractResult :=
  let caption := extractCaption od
  if caption.isSome ∧ shouldNormalizeFromCaption caption then
    match normalizeRecipeM env .tiktok normOutcome with
    | (.ok (recipe, mdl, ms, p), calls) =>
        let meta : CacheMeta :=
          { source_url := some url
            caption := caption
            model := some mdl
            ai_provider := some (AIProviderTag.str p)
            platform := some ("tiktok")
            source := some ("caption")
            timings :=
              if p = .openai then { openai_ms := some ms } else { gemini_ms := some ms }
            author := od.author_name
            author_url := od.author_url
            creator_handle := od.author_unique_id
            thumbnail_url := od.thumbnail_url
            thumbnail_width := od.thumbnail_width
            thumbnail_height := od.thumbnail_height }
        { status := 200
          value := some recipe
          store := Store.upsert store videoId { status := .READY, value := some recipe, meta := some meta }
          providerCalls := calls }
    | (.error _, calls) => extractApifyPath env url videoId od caption trigger store calls
  else extractApifyPath env url videoId od caption trigger store []

/-- TikTok branch of /extract after the oEmbed fetch: canonical id check,
cache-status branches (READY and PENDING are served from cache with no force
check; FAILED is served from cache only when force is unset), then fresh
processing. -/
def extractTikTok (env : Env) (url : String) (force : Bool) (od : OEmbedData)
    (normOutcome : NormOutcome) (trigger : TriggerOutcome) (store : Store) : ExtractResult :=
  match od.embed_product_id with
  | none => { status := 400, store := store }
  | some videoId =>
      if videoId = "" then { status := 400, store := store }
      else
        match Store.get store videoId with
        | some row =>
            if row.status = .READY then
              { status := 200, value := row.value, store := store }
            else if row.status = .PENDING then
              { status := 202, store := store }
            else if row.status = .FAILED ∧ ¬ force then
              { status := 200, error := row.error, store := store }
            else extractTikTokFresh env url videoId od normOutcome trigger store
        | none => extractTikTokFresh env url videoId od normOutcome trigger store

/-- YouTube branch of /extract after the oEmbed fetch: thumbnail-derived id,
READY-and-not-forced cache hit, otherwise Gemini video analysis with READY or
FAILED terminal write. -/
def extractYouTube (env : Env) (url : String) (force : Bool) (od : OEmbedData)
    (normOutcome : NormOutcome) (store : Store) : ExtractResult :=
  match getVideoIdFromOEmbed od with
  | none => { status := 400, store := store }
  | some videoId =>
      let cached := Store.get store videoId
      if (cached.map (fun r => r.status) = some .READY) ∧ ¬ force then
        { status := 200, value := cached.bind (fun r => r.value), store := store }
      else
        match normalizeYouTubeVideoM env normOutcome with
        | (.ok (recipe, mdl, ms, _), calls) =>
            let meta : CacheMeta :=
              { source_url := some url
                model := some mdl
                ai_provider := some ("gemini")
                platform := some ("youtube")
                source := some ("video_analysis")
                timings := { gemini_ms := some ms }
                author := od.author_name
                author_url := od.author_url
                thumbnail_url := od.thumbnail_url
                thumbnail_width := od.thumbnail_width
                thumbnail_height := od.thumbnail_height }
            { status := 200
              value := some recipe
              store := Store.upsert store videoId { status := .READY, value := some recipe, meta := some meta }
              providerCalls := calls }
        | (.error msg, calls) =>
            { status := 500
              store :=
                Store.upsert store videoId
                  { status := .FAILED
                    error := some ⟨"gemini_video_error", msg⟩
                    meta := some { source_url := some url, platform := some ("youtube") } }
              providerCalls := calls }

/-- Model of the POST /extract request handler.  urlObj is the runtime URL
parse of the request body URL (none when parsing threw); ytOembed and tkOembed
are the outcomes of the platform oEmbed fetches; database reads and writes are
assumed to succeed. -/
def extract (env : Env) (method : String) (url : String) (force : Bool)
    (urlObj : Option UrlObj) (ytOembed tkOembed : Option OEmbedData)
    (normOutcome : NormOutcome) (trigger : TriggerOutcome) (store : Store) : ExtractResult :=
  if method = ("OPTIONS") then { status := 204, store := store }
  else if method ≠ ("POST") then { status := 405, store := store }
  else if url = "" then { status := 400, store := store }
  else
    match parseVideoUrl urlObj with
    | none => { status := 400, store := store }
    | some platform =>
        if ¬ (jsTruthy env.supabaseUrl ∧ jsTruthy env.supabaseServiceKey) then
          { status := 500, store := store }
        else
          match platform with
          | .youtube =>
              match ytOembed with
              | none => { status := 400, store := store }
              | some od => extractYouTube env url force od normOutcome store
          | .tiktok =>
              match tkOembed with
              | none => { status := 400, store := store }
              | some od => extractTikTok env url force od normOutcome trigger store

/-! ## Read-only poll endpoint (GET /result) -/

/-- Result of one /result request. -/
structure ResultResult where
  status : Nat
  value : Option Recipe := none
  error : Option CacheError := none
  store : Store
deriving DecidableEq, Repr

/-- Model of the GET /result handler: status-to-HTTP mapping over the stored
row, 404 when the key was never created, no writes anywhere. -/
def resultHandler (env : Env) (method : String) (keyParam : Option String)
    (store : Store) : ResultResult :=
  if method = ("OPTIONS") then { status := 204, store := store }
  else if method ≠ ("GET") then { status := 405, store := store }
  else if ¬ jsTruthy keyParam then { status := 400, store := store }
  else if ¬ (jsTruthy env.supabaseUrl ∧ jsTruthy env.supabaseServiceKey) then
    { status := 500, store := store }
  else
    let key := keyParam.getD ""
    match Store.get store key with
    | none =>
        { status := 404
          error := some ⟨"not_found", "No recipe found for this key. Did you call /extract first?"⟩
          store := store }
    | some row =>
        let value := if row.status = .READY ∧ row.value.isSome then row.value else none
        let err := if row.status = .FAILED ∧ row.error.isSome then row.error else none
        let http := if row.status = .PENDING then 202 else 200
        { status := http, value := value, error := err, store := store }

/-! ## Concrete fixtures

Closed sample inputs used by the concrete evaluation theorems below. -/

/-- Fully configured environment. -/
def sampleEnv : Env :=
  { supabaseUrl := some ("https://proj.supabase.co")
    supabaseServiceKey := some ("service-key")
    apifyToken := some ("apify-token")
    apifyActorId := some ("actor-1")
    webhookSecret := some ("sec")
    openaiKey := some ("openai-key")
    geminiKey := some ("gemini-key") }

/-- A normalized recipe previously stored for key v1. -/
def sampleRecipe : Recipe :=
  { id := "v1", source_url := "https://www.tiktok.com/@u/video/1", title := "Pasta" }

/-- Cache holding a READY row for key v1. -/
def readyStore : Store :=
  [("v1", { status := .READY, value := some sampleRecipe })]

/-- Cache holding a PENDING row for key v1 whose meta carries attribution
recorded by the original /extract call. -/
def pendingMetaStore : Store :=
  [("v1",
    { status := .PENDING
      meta := some
        { source_url := some ("https://www.tiktok.com/@u/video/1")
          caption := some ("terse caption")
          author := some ("Alice") } })]

/-- Parsed form of a standard TikTok video URL. -/
def tkUrlObj : UrlObj :=
  { hostname := "www.tiktok.com", pathname := "/@u/video/1" }

/-- Raw TikTok URL string for the fixtures. -/
def tkUrlString : String := "https://www.tiktok.com/@u/video/1"

/-- TikTok oEmbed answer with a terse caption and canonical id v1. -/
def tkOembedTerse : OEmbedData :=
  { title := some ("terse caption"), author_name := some ("Alice"), embed_product_id := some ("v1") }

/-- A caption that clears both recipe-heuristic thresholds. -/
def richCaption : String :=
  "Easy pasta recipe: add garlic, butter and salt, cook 10 minutes"

/-- TikTok oEmbed answer whose caption clears the recipe heuristic. -/
def tkOembedRich : OEmbedData :=
  { title := some richCaption, author_name := some ("Alice"), embed_product_id := some ("v1") }

/-- Webhook payload carrying only a dataset reference. -/
def samplePayload : ApifyWebhookPayload :=
  { datasetId := some ("ds1") }

/-- Webhook payload carrying a dataset reference and an actor run id. -/
def samplePayloadRun : ApifyWebhookPayload :=
  { datasetId := some ("ds1"), actorRunId := some ("run9") }

/-- Dataset item carrying only the canonical key (scrape found no text). -/
def itemKeyOnly : DatasetItem :=
  { id := some ("v1") }

/-- Dataset item carrying the canonical key and a transcript. -/
def itemWithTranscript : DatasetItem :=
  { id := some ("v1"), transcript := some ("WEBVTT cue text") }

/-! ## Shared lemmas -/

/-- Reading back the key just upserted yields the patched row. -/
theorem Store.get_upsert_self (s : Store) (k : String) (p : UpsertFields) :
    Store.get (Store.upsert s k p) k = some (applyPatch (Store.get s k) p) := by
  induction s with
  | nil => simp [Store.upsert, Store.get]
  | cons hd tl ih =>
      obtain ⟨k', r⟩ := hd
      by_cases h : k' = k
      · simp [Store.upsert, Store.get, h]
      · simp [Store.upsert, Store.get, h, ih]

/-- Truthiness of a present string is its non-emptiness. -/
theorem jsTruthy_some (s : String) : jsTruthy (some s) = decide (s ≠ "") := rfl

/-- With the POST gates satisfied, the webhook handler reduces to first-item
processing. -/
theorem apifyWebhook_reduce (env : Env) (sec : String) (payload : ApifyWebhookPayload)
    (fetchRun : Option (Option String)) (dsId : String) (items : List DatasetItem)
    (normResult : NormOutcome) (store : Store)
    (hsec : env.webhookSecret = some sec) (hne : sec ≠ "")
    (htok : jsTruthy env.apifyToken = true)
    (hds : resolveDatasetId payload fetchRun = .ok dsId) :
    apifyWebhook env "POST" (some sec) payload fetchRun (some items) normResult store =
      match items with
      | [] => ⟨400, store, 0⟩
      | it :: _ => processFirstItem env payload dsId it normResult store := by
  simp [apifyWebhook, hsec, jsTruthy_some, hne, verifyWebhookSecret, htok, hds]

/-- The slow-path helper always records exactly one trigger attempt when the
Apify configuration is present, and passes the fast-path call log through. -/
theorem extractApifyPath_attempts (env : Env) (url vid : String) (od : OEmbedData)
    (caption : Option String) (trigger : TriggerOutcome) (store : Store)
    (calls : List AIProviderTag)
    (hcfg : jsTruthy env.apifyToken = true ∧ jsTruthy env.apifyActorId = true ∧
      jsTruthy env.webhookSecret = true) :
    (extractApifyPath env url vid od caption trigger store calls).apifyAttempts = 1 ∧
      (extractApifyPath env url vid od caption trigger store calls).providerCalls = calls := by
  cases trigger <;> simp [extractApifyPath, hcfg]

/-! ## Claim C1 -/

/-- C1: refuted as stated by the code — exhibit of the no-content regression.
A webhook delivery whose dataset contains neither caption nor transcript,
arriving for a key whose job is READY, is answered 400 and upserts status
FAILED onto the READY row (the no-content write precedes the idempotency
check), moving the job backward from READY while leaving its value column in
place. -/
theorem claim_C1_noContent_regresses_ready_exhibit :
    (apifyWebhook sampleEnv "POST" (some ("sec")) samplePayload none
        (some [itemKeyOnly]) (.fail ("unused")) readyStore).status = 400 ∧
    (Store.get (apifyWebhook sampleEnv "POST" (some ("sec")) samplePayload none
        (some [itemKeyOnly]) (.fail ("unused")) readyStore).store "v1").map
        (fun r => r.status) = some .FAILED ∧
    (Store.get (apifyWebhook sampleEnv "POST" (some ("sec")) samplePayload none
        (some [itemKeyOnly]) (.fail ("unused")) readyStore).store "v1").bind
        (fun r => r.value) = some sampleRecipe ∧
    (Store.get readyStore "v1").map (fun r => r.status) = some .READY := by
  decide

/-! ## Claim C2 -/

/-- C2: a webhook delivery whose key resolves to a READY job and whose dataset
carries caption or transcript text is acknowledged with 200 without invoking
the normalizer and without writing to the job store. -/
theorem claim_C2_ready_duplicate_acknowledged
    (env : Env) (sec : String) (payload : ApifyWebhookPayload)
    (fetchRun : Option (Option String)) (dsId : String)
    (item : DatasetItem) (rest : List DatasetItem) (normResult : NormOutcome)
    (store : Store) (key : String) (row : CacheRow)
    (hsec : env.webhookSecret = some sec) (hne : sec ≠ "")
    (htok : jsTruthy env.apifyToken = true)
    (hds : resolveDatasetId payload fetchRun = .ok dsId)
    (hkey : extractItemKey item = some key)
    (hcontent : ¬ (itemCaption item = none ∧ itemTranscript item = none))
    (hsu : jsTruthy env.supabaseUrl = true) (hsk : jsTruthy env.supabaseServiceKey = true)
    (hrow : Store.get store key = some row) (hready : row.status = .READY) :
    apifyWebhook env "POST" (some sec) payload fetchRun (some (item :: rest))
      normResult store = ⟨200, store, 0⟩ := by
  rw [apifyWebhook_reduce env sec payload fetchRun dsId (item :: rest) normResult store
    hsec hne htok hds]
  simp [processFirstItem, hkey, hcontent, hsu, hsk, hrow, hready]

/-- C2 witness: concrete duplicate delivery for the READY key v1. -/
theorem claim_C2_ready_duplicate_acknowledged_witness :
    apifyWebhook sampleEnv "POST" (some ("sec")) samplePayload none
      (some [itemWithTranscript]) (.fail ("unused")) readyStore = ⟨200, readyStore, 0⟩ :=
  claim_C2_ready_duplicate_acknowledged sampleEnv "sec" samplePayload none "ds1"
    itemWithTranscript [] (.fail ("unused")) readyStore "v1"
    { status := .READY, value := some sampleRecipe }
    rfl (by decide) (by decide) (by decide) (by decide) (by decide) (by decide)
    (by decide) (by decide) (by decide)

/-! ## Claim C7 -/

/-- C7: a POST webhook delivery whose secret query parameter is absent or
differs from the configured shared secret is rejected with 401, the job store
is untouched, and the normalizer is never invoked. -/
theorem claim_C7_bad_secret_rejected
    (env : Env) (sec : String) (reqSecret : Option String)
    (payload : ApifyWebhookPayload) (fetchRun : Option (Option String))
    (fetchDataset : Option (List DatasetItem)) (normResult : NormOutcome) (store : Store)
    (hsec : env.webhookSecret = some sec) (hne : sec ≠ "")
    (hmismatch : reqSecret ≠ some sec) :
    apifyWebhook env "POST" reqSecret payload fetchRun fetchDataset normResult store =
      ⟨401, store, 0⟩ := by
  have hv : verifyWebhookSecret reqSecret sec = false := by
    cases reqSecret with
    | none => rfl
    | some t =>
        by_cases ht : t = ""
        · simp [verifyWebhookSecret, ht]
        · have htn : t ≠ sec := fun h => hmismatch (by rw [h])
          simp [verifyWebhookSecret, ht, htn]
  simp [apifyWebhook, hsec, jsTruthy_some, hne, hv]

/-- C7 witness: concrete delivery with a wrong secret leaves the READY row
untouched and is answered 401. -/
theorem claim_C7_bad_secret_rejected_witness :
    apifyWebhook sampleEnv "POST" (some ("wrong")) samplePayload none (some [])
      (.fail ("x")) readyStore = ⟨401, readyStore, 0⟩ :=
  claim_C7_bad_secret_rejected sampleEnv "sec" (some ("wrong")) samplePayload none
    (some []) (.fail ("x")) readyStore rfl (by decide) (by decide)

/-! ## Claim C10 -/

/-- C10: the webhook handler consumes the fetched dataset only through its
first item — appending further items changes neither the job state nor the
response — and an empty dataset is rejected with 400 without any job-store
write. -/
theorem claim_C10_first_item_only
    (env : Env) (sec : String) (payload : ApifyWebhookPayload)
    (fetchRun : Option (Option String)) (dsId : String)
    (item : DatasetItem) (rest : List DatasetItem)
    (normResult : NormOutcome) (store : Store)
    (hsec : env.webhookSecret = some sec) (hne : sec ≠ "")
    (htok : jsTruthy env.apifyToken = true)
    (hds : resolveDatasetId payload fetchRun = .ok dsId) :
    apifyWebhook env "POST" (some sec) payload fetchRun (some (item :: rest))
        normResult store =
      apifyWebhook env "POST" (some sec) payload fetchRun (some [item]) normResult store ∧
    apifyWebhook env "POST" (some sec) payload fetchRun (some []) normResult store =
      ⟨400, store, 0⟩ := by
  rw [apifyWebhook_reduce env sec payload fetchRun dsId (item :: rest) normResult store
      hsec hne htok hds,
    apifyWebhook_reduce env sec payload fetchRun dsId [item] normResult store
      hsec hne htok hds,
    apifyWebhook_reduce env sec payload fetchRun dsId [] normResult store
      hsec hne htok hds]
  exact ⟨rfl, rfl⟩

/-- C10 witness: concrete delivery where a second dataset item is ignored and
the empty dataset is a 400 no-op. -/
theorem claim_C10_first_item_only_witness :
    apifyWebhook sampleEnv "POST" (some ("sec")) samplePayload none
        (some [itemWithTranscript, itemKeyOnly]) (.fail ("x")) readyStore =
      apifyWebhook sampleEnv "POST" (some ("sec")) samplePayload none
        (some [itemWithTranscript]) (.fail ("x")) readyStore ∧
    apifyWebhook sampleEnv "POST" (some ("sec")) samplePayload none (some [])
        (.fail ("x")) readyStore = ⟨400, readyStore, 0⟩ :=
  claim_C10_first_item_only sampleEnv "sec" samplePayload none "ds1"
    itemWithTranscript [itemKeyOnly] (.fail ("x")) readyStore
    rfl (by decide) (by decide) (by decide)

/-! ## Claim C9 -/

/-- C9: refuted as stated — the FAILED write on normalizer failure replaces
the stored meta with a payload-derived object, erasing the author recorded by
the original /extract call. -/
theorem claim_C9_failed_write_clobbers_meta_counterexample :
    ((Store.get pendingMetaStore "v1").bind (fun r => r.meta)).bind
        (fun m => m.author) = some ("Alice") ∧
    ((Store.get (apifyWebhook sampleEnv "POST" (some ("sec")) samplePayloadRun none
          (some [itemWithTranscript]) (.fail ("openai down")) pendingMetaStore).store
        "v1").bind (fun r => r.meta)).bind (fun m => m.author) = none ∧
    (apifyWebhook sampleEnv "POST" (some ("sec")) samplePayloadRun none
        (some [itemWithTranscript]) (.fail ("openai down")) pendingMetaStore).status = 500 := by
  decide

/-- C9 amended: only the READY transition merges with the stored meta — for
the attribution fields (author, author profile URL, creator handle, thumbnail
URL) a value absent from the webhook dataset keeps the value stored by the
original /extract call; the FAILED transitions replace the meta instead. -/
theorem claim_C9_amended_ready_merge
    (env : Env) (sec : String) (payload : ApifyWebhookPayload)
    (fetchRun : Option (Option String)) (dsId : String)
    (item : DatasetItem) (rest : List DatasetItem) (store : Store)
    (key : String) (row : CacheRow) (m : CacheMeta)
    (recipe : Recipe) (mdl : String) (ms : Nat)
    (hsec : env.webhookSecret = some sec) (hne : sec ≠ "")
    (htok : jsTruthy env.apifyToken = true)
    (hds : resolveDatasetId payload fetchRun = .ok dsId)
    (hkey : extractItemKey item = some key)
    (hcontent : ¬ (itemCaption item = none ∧ itemTranscript item = none))
    (hsu : jsTruthy env.supabaseUrl = true) (hsk : jsTruthy env.supabaseServiceKey = true)
    (hrow : Store.get store key = some row) (hnr : row.status ≠ .READY)
    (hm : row.meta = some m)
    (hoak : jsTruthy env.openaiKey = true)
    (hA : datasetAuthor item = none) (hAU : datasetAuthorUrl item = none)
    (hCH : datasetCreatorHandle item = none) (hTU : datasetThumbnailUrl item = none) :
    ((Store.get (apifyWebhook env "POST" (some sec) payload fetchRun
          (some (item :: rest)) (.ok recipe mdl ms) store).store key).bind
        (fun r => r.meta)).map
        (fun um => (um.author, um.author_url, um.creator_handle, um.thumbnail_url)) =
      some (m.author, m.author_url, m.creator_handle, m.thumbnail_url) ∧
    (Store.get (apifyWebhook env "POST" (some sec) payload fetchRun
          (some (item :: rest)) (.ok recipe mdl ms) store).store key).map
        (fun r => r.status) = some .READY := by
  rw [apifyWebhook_reduce env sec payload fetchRun dsId (item :: rest) (.ok recipe mdl ms)
    store hsec hne htok hds]
  simp [processFirstItem, hkey, hcontent, hsu, hsk, hrow, hnr, hm, hoak,
    Store.get_upsert_self, applyPatch, optOr, hA, hAU, hCH, hTU, jsor]

/-- C9 amended witness: concrete READY completion over the PENDING row keeps
the attribution stored by /extract. -/
theorem claim_C9_amended_ready_merge_witness :
    ((Store.get (apifyWebhook sampleEnv "POST" (some ("sec")) samplePayloadRun none
          (some [itemWithTranscript]) (.ok sampleRecipe ("gpt-4o-mini") 5)
          pendingMetaStore).store "v1").bind (fun r => r.meta)).map
        (fun um => (um.author, um.author_url, um.creator_handle, um.thumbnail_url)) =
      some (some ("Alice"), none, none, none) ∧
    (Store.get (apifyWebhook sampleEnv "POST" (some ("sec")) samplePayloadRun none
          (some [itemWithTranscript]) (.ok sampleRecipe ("gpt-4o-mini") 5)
          pendingMetaStore).store "v1").map (fun r => r.status) = some .READY :=
  claim_C9_amended_ready_merge sampleEnv "sec" samplePayloadRun none "ds1"
    itemWithTranscript [] pendingMetaStore "v1"
    { status := .PENDING
      meta := some
        { source_url := some ("https://www.tiktok.com/@u/video/1")
          caption := some ("terse caption")
          author := some ("Alice") } }
    { source_url := some ("https://www.tiktok.com/@u/video/1")
      caption := some ("terse caption")
      author := some ("Alice") }
    sampleRecipe "gpt-4o-mini" 5
    rfl (by decide) (by decide) (by decide) (by decide) (by decide) (by decide)
    (by decide) (by decide) (by decide) (by decide) (by decide) (by decide)
    (by decide) (by decide) (by decide)

/-! ## Claim C6 -/

/-- C6: when the Gemini key is absent (or empty), routing a YouTube
normalization fails with the missing-credential error before any provider
network call — the recorded call list is empty — and the YouTube route can
never select a provider other than Gemini, so no fallback exists. -/
theorem claim_C6_youtube_missing_credential
    (env env2 : Env) (outcome : NormOutcome) (p : AIProviderTag) (k : String)
    (h : jsTruthy env.geminiKey = false) :
    getAIProvider env .youtube =
      .error ("GEMINI_API_KEY is required for YouTube videos") ∧
    normalizeYouTubeVideoM env outcome =
      (.error ("GEMINI_API_KEY is required for YouTube videos"), []) ∧
    (getAIProvider env2 .youtube = .ok (p, k) → p = .gemini) := by
  refine ⟨?_, ?_, ?_⟩
  · simp [getAIProvider, h]
  · simp [normalizeYouTubeVideoM, h]
  · intro h2
    by_cases hg : jsTruthy env2.geminiKey = true
    · simp [getAIProvider, hg] at h2
      exact h2.1.symm
    · simp [getAIProvider, hg] at h2

/-- C6 witness: concrete environment without a Gemini key fails closed while a
configured one still routes YouTube to Gemini. -/
theorem claim_C6_youtube_missing_credential_witness :
    getAIProvider ({ sampleEnv with geminiKey := none }) .youtube =
      .error ("GEMINI_API_KEY is required for YouTube videos") ∧
    normalizeYouTubeVideoM ({ sampleEnv with geminiKey := none }) (.fail ("x")) =
      (.error ("GEMINI_API_KEY is required for YouTube videos"), []) ∧
    (getAIProvider sampleEnv .youtube = .ok (.gemini, "gemini-key") →
      AIProviderTag.gemini = .gemini) :=
  claim_C6_youtube_missing_credential ({ sampleEnv with geminiKey := none }) sampleEnv
    (.fail ("x")) .gemini "gemini-key" (by decide)

/-! ## Claim C8 -/

/-- C8: the read-only poll maps the stored job exactly to 404 when no row
exists, 202 for PENDING, 200 for READY with the value embedded, and 200 for
FAILED with the error embedded, and never writes to the job store. -/
theorem claim_C8_result_status_mapping
    (env : Env) (k : String) (store : Store) (row : CacheRow)
    (hk : k ≠ "")
    (hsu : jsTruthy env.supabaseUrl = true) (hsk : jsTruthy env.supabaseServiceKey = true) :
    (resultHandler env "GET" (some k) store).store = store ∧
    (Store.get store k = none → (resultHandler env "GET" (some k) store).status = 404) ∧
    (Store.get store k = some row →
      (row.status = .READY →
        (resultHandler env "GET" (some k) store).status = 200 ∧
        (resultHandler env "GET" (some k) store).value = row.value) ∧
      (row.status = .PENDING →
        (resultHandler env "GET" (some k) store).status = 202 ∧
        (resultHandler env "GET" (some k) store).value = none) ∧
      (row.status = .FAILED →
        (resultHandler env "GET" (some k) store).status = 200 ∧
        (resultHandler env "GET" (some k) store).error = row.error)) := by
  refine ⟨?_, ?_, ?_⟩
  · rcases hg : Store.get store k with _ | row2
    · simp [resultHandler, jsTruthy_some, hk, hsu, hsk, hg]
    · simp [resultHandler, jsTruthy_some, hk, hsu, hsk, hg]
  · intro hg
    simp [resultHandler, jsTruthy_some, hk, hsu, hsk, hg]
  · intro hg
    refine ⟨?_, ?_, ?_⟩ <;> intro hs
    · cases hv : row.value with
      | none => simp [resultHandler, jsTruthy_some, hk, hsu, hsk, hg, hs, hv]
      | some v => simp [resultHandler, jsTruthy_some, hk, hsu, hsk, hg, hs, hv]
    · simp [resultHandler, jsTruthy_some, hk, hsu, hsk, hg, hs]
    · cases hv : row.error with
      | none => simp [resultHandler, jsTruthy_some, hk, hsu, hsk, hg, hs, hv]
      | some e => simp [resultHandler, jsTruthy_some, hk, hsu, hsk, hg, hs, hv]

/-- C8 witness: concrete poll of the READY row v1. -/
theorem claim_C8_result_status_mapping_witness :
    (resultHandler sampleEnv "GET" (some ("v1")) readyStore).store = readyStore ∧
    (Store.get readyStore "v1" = none →
      (resultHandler sampleEnv "GET" (some ("v1")) readyStore).status = 404) ∧
    (Store.get readyStore "v1" = some { status := .READY, value := some sampleRecipe } →
      (CacheStatus.READY = .READY →
        (resultHandler sampleEnv "GET" (some ("v1")) readyStore).status = 200 ∧
        (resultHandler sampleEnv "GET" (some ("v1")) readyStore).value = some sampleRecipe) ∧
      (CacheStatus.READY = .PENDING →
        (resultHandler sampleEnv "GET" (some ("v1")) readyStore).status = 202 ∧
        (resultHandler sampleEnv "GET" (some ("v1")) readyStore).value = none) ∧
      (CacheStatus.READY = .FAILED →
        (resultHandler sampleEnv "GET" (some ("v1")) readyStore).status = 200 ∧
        (resultHandler sampleEnv "GET" (some ("v1")) readyStore).error = none)) :=
  claim_C8_result_status_mapping sampleEnv "v1" readyStore
    { status := .READY, value := some sampleRecipe }
    (by decide) (by decide) (by decide)

/-- With the request gates satisfied and a TikTok classification, /extract
reduces to its TikTok branch. -/
theorem extract_tiktok_reduce (env : Env) (url : String) (force : Bool) (uo : UrlObj)
    (yt : Option OEmbedData) (od : OEmbedData) (normOutcome : NormOutcome)
    (trigger : TriggerOutcome) (store : Store)
    (hplat : parseVideoUrl (some uo) = some .tiktok) (hurl : url ≠ "")
    (hsu : jsTruthy env.supabaseUrl = true) (hsk : jsTruthy env.supabaseServiceKey = true) :
    extract env "POST" url force (some uo) yt (some od) normOutcome trigger store =
      extractTikTok env url force od normOutcome trigger store := by
  simp [extract, hurl, hplat, hsu, hsk]

/-- A FAILED row with force set falls through to fresh TikTok processing. -/
theorem extractTikTok_failed_forced (env : Env) (url : String) (od : OEmbedData)
    (normOutcome : NormOutcome) (trigger : TriggerOutcome) (store : Store)
    (vid : String) (row : CacheRow)
    (hvid : od.embed_product_id = some vid) (hvne : vid ≠ "")
    (hrow : Store.get store vid = some row) (hs : row.status = .FAILED) :
    extractTikTok env url true od normOutcome trigger store =
      extractTikTokFresh env url vid od normOutcome trigger store := by
  simp [extractTikTok, hvid, hvne, hrow, hs]

/-! ## Claim C3 -/

/-- C3: refuted as stated — a forced /extract call for a TikTok URL whose
canonical key holds a READY row returns the cached value with no provider
call, no trigger attempt and no store write, instead of re-processing. -/
theorem claim_C3_forced_ready_tiktok_counterexample :
    extract sampleEnv "POST" tkUrlString true (some tkUrlObj) none (some tkOembedTerse)
        (.fail ("x")) (.ok ("run1")) readyStore =
      { status := 200, value := some sampleRecipe, store := readyStore } := by
  decide

/-- C3 amended: on the TikTok path, force only bypasses the FAILED cache
branch — READY rows are served from cache (with no re-work) and PENDING rows
return 202 regardless of force, while a FAILED row with force set is
re-processed (a provider call or a trigger attempt happens). -/
theorem claim_C3_amended_force_scope
    (env : Env) (url : String) (force : Bool) (uo : UrlObj)
    (yt : Option OEmbedData) (od : OEmbedData)
    (normOutcome : NormOutcome) (trigger : TriggerOutcome) (store : Store)
    (vid : String) (row : CacheRow)
    (hplat : parseVideoUrl (some uo) = some .tiktok) (hurl : url ≠ "")
    (hsu : jsTruthy env.supabaseUrl = true) (hsk : jsTruthy env.supabaseServiceKey = true)
    (hvid : od.embed_product_id = some vid) (hvne : vid ≠ "")
    (hrow : Store.get store vid = some row) :
    (row.status = .READY →
      extract env "POST" url force (some uo) yt (some od) normOutcome trigger store =
        { status := 200, value := row.value, store := store }) ∧
    (row.status = .PENDING →
      extract env "POST" url force (some uo) yt (some od) normOutcome trigger store =
        { status := 202, store := store }) ∧
    (row.status = .FAILED → force = true →
      jsTruthy env.apifyToken = true → jsTruthy env.apifyActorId = true →
      jsTruthy env.webhookSecret = true →
      1 ≤ (extract env "POST" url force (some uo) yt (some od) normOutcome trigger
            store).providerCalls.length +
          (extract env "POST" url force (some uo) yt (some od) normOutcome trigger
            store).apifyAttempts) := by
  rw [extract_tiktok_reduce env url force uo yt od normOutcome trigger store
    hplat hurl hsu hsk]
  refine ⟨?_, ?_, ?_⟩
  · intro hs
    simp [extractTikTok, hvid, hvne, hrow, hs]
  · intro hs
    simp [extractTikTok, hvid, hvne, hrow, hs]
  · intro hs hf ht ha hw
    subst hf
    rw [extractTikTok_failed_forced env url od normOutcome trigger store vid row
      hvid hvne hrow hs]
    by_cases hgate : (extractCaption od).isSome = true ∧
        shouldNormalizeFromCaption (extractCaption od) = true
    · simp only [extractTikTokFresh, if_pos hgate]
      cases hprov : getAIProvider env .tiktok with
      | error e =>
          simp only [normalizeRecipeM, hprov]
          have h1 := extractApifyPath_attempts env url vid od (extractCaption od)
            trigger store [] ⟨ht, ha, hw⟩
          omega
      | ok pk =>
          obtain ⟨p, kk⟩ := pk
          cases normOutcome with
          | ok r m ms => simp [normalizeRecipeM, hprov]
          | fail msg =>
              simp only [normalizeRecipeM, hprov]
              have h1 := extractApifyPath_attempts env url vid od (extractCaption od)
                trigger store [p] ⟨ht, ha, hw⟩
              omega
    · simp only [extractTikTokFresh, if_neg hgate]
      have h1 := extractApifyPath_attempts env url vid od (extractCaption od)
        trigger store [] ⟨ht, ha, hw⟩
      omega

/-- C3 amended witness: concrete forced retry of a FAILED TikTok row causes
re-work. -/
theorem claim_C3_amended_force_scope_witness :
    (CacheStatus.FAILED = .READY →
      extract sampleEnv "POST" tkUrlString true (some tkUrlObj) none (some tkOembedTerse)
          (.fail ("x")) (.ok ("run1"))
          [("v1", { status := .FAILED, error := some ⟨"apify_error", "boom"⟩ })] =
        { status := 200, value := none,
          store := [("v1", { status := .FAILED, error := some ⟨"apify_error", "boom"⟩ })] }) ∧
    (CacheStatus.FAILED = .PENDING →
      extract sampleEnv "POST" tkUrlString true (some tkUrlObj) none (some tkOembedTerse)
          (.fail ("x")) (.ok ("run1"))
          [("v1", { status := .FAILED, error := some ⟨"apify_error", "boom"⟩ })] =
        { status := 202,
          store := [("v1", { status := .FAILED, error := some ⟨"apify_error", "boom"⟩ })] }) ∧
    (CacheStatus.FAILED = .FAILED → true = true →
      jsTruthy sampleEnv.apifyToken = true → jsTruthy sampleEnv.apifyActorId = true →
      jsTruthy sampleEnv.webhookSecret = true →
      1 ≤ (extract sampleEnv "POST" tkUrlString true (some tkUrlObj) none
            (some tkOembedTerse) (.fail ("x")) (.ok ("run1"))
            [("v1", { status := .FAILED, error := some ⟨"apify_error", "boom"⟩ })]).providerCalls.length +
          (extract sampleEnv "POST" tkUrlString true (some tkUrlObj) none
            (some tkOembedTerse) (.fail ("x")) (.ok ("run1"))
            [("v1", { status := .FAILED, error := some ⟨"apify_error", "boom"⟩ })]).apifyAttempts) :=
  claim_C3_amended_force_scope sampleEnv tkUrlString true tkUrlObj none tkOembedTerse
    (.fail ("x")) (.ok ("run1"))
    [("v1", { status := .FAILED, error := some ⟨"apify_error", "boom"⟩ })]
    "v1" { status := .FAILED, error := some ⟨"apify_error", "boom"⟩ }
    (by decide) (by decide) (by decide) (by decide) (by decide) (by decide) (by decide)

/-! ## Claim C4 -/

/-- C4: when the caption clears the recipe gate but the synchronous
normalization errors, a fresh /extract request still returns 202 with a
PENDING row written, provided the Apify configuration is present and the
trigger succeeds — the normalizer failure is not surfaced. -/
theorem claim_C4_fastpath_failure_degrades_to_pending
    (env : Env) (url : String) (force : Bool) (uo : UrlObj)
    (yt : Option OEmbedData) (od : OEmbedData)
    (normOutcome : NormOutcome) (trigger : TriggerOutcome) (store : Store)
    (vid c emsg runId : String)
    (hplat : parseVideoUrl (some uo) = some .tiktok) (hurl : url ≠ "")
    (hsu : jsTruthy env.supabaseUrl = true) (hsk : jsTruthy env.supabaseServiceKey = true)
    (hvid : od.embed_product_id = some vid) (hvne : vid ≠ "")
    (hmiss : Store.get store vid = none)
    (hcap : extractCaption od = some c)
    (hgate : shouldNormalizeFromCaption (some c) = true)
    (hnorm : (normalizeRecipeM env .tiktok normOutcome).1 = .error emsg)
    (ht : jsTruthy env.apifyToken = true) (ha : jsTruthy env.apifyActorId = true)
    (hw : jsTruthy env.webhookSecret = true)
    (htr : trigger = .ok runId) :
    (extract env "POST" url force (some uo) yt (some od) normOutcome trigger store).status
        = 202 ∧
    (Store.get (extract env "POST" url force (some uo) yt (some od) normOutcome trigger
        store).store vid).map (fun r => r.status) = some .PENDING ∧
    (extract env "POST" url force (some uo) yt (some od) normOutcome trigger store).value
        = none := by
  rw [extract_tiktok_reduce env url force uo yt od normOutcome trigger store
    hplat hurl hsu hsk]
  have hfresh : extractTikTok env url force od normOutcome trigger store =
      extractTikTokFresh env url vid od normOutcome trigger store := by
    simp [extractTikTok, hvid, hvne, hmiss]
  rw [hfresh]
  rcases hn : normalizeRecipeM env .tiktok normOutcome with ⟨res, calls⟩
  rw [hn] at hnorm
  simp only at hnorm
  subst hnorm
  simp only [extractTikTokFresh, hcap, hgate, Option.isSome_some, and_self, if_pos, hn,
    extractApifyPath, ht, ha, hw, htr, Store.get_upsert_self, hmiss, applyPatch]
  simp [Store.get_upsert_self, hmiss, applyPatch]

/-- C4 witness: concrete fresh request with a rich caption, failing
normalizer and successful trigger. -/
theorem claim_C4_fastpath_failure_degrades_to_pending_witness :
    (extract sampleEnv "POST" tkUrlString false (some tkUrlObj) none (some tkOembedRich)
        (.fail ("ai down")) (.ok ("run1")) []).status = 202 ∧
    (Store.get (extract sampleEnv "POST" tkUrlString false (some tkUrlObj) none
        (some tkOembedRich) (.fail ("ai down")) (.ok ("run1")) []).store "v1").map
        (fun r => r.status) = some .PENDING ∧
    (extract sampleEnv "POST" tkUrlString false (some tkUrlObj) none (some tkOembedRich)
        (.fail ("ai down")) (.ok ("run1")) []).value = none :=
  claim_C4_fastpath_failure_degrades_to_pending sampleEnv tkUrlString false tkUrlObj
    none tkOembedRich (.fail ("ai down")) (.ok ("run1")) [] "v1" richCaption "ai down"
    "run1" (by decide) (by decide) (by decide) (by decide) (by decide) (by decide)
    (by decide) (by decide) (by decide) rfl (by decide) (by decide) (by decide)
    (by decide)

/-! ## Claim C5 -/

/-- C5: the fast-path gate accepts a caption exactly when its trimmed length
reaches the configured floor and at least the configured number of distinct
keywords from the fixed list occur in it case-insensitively; on a fresh
request an accepted caption is sent to immediate normalization and a rejected
one is routed to the slow transcript path. -/
theorem claim_C5_recipe_gate
    (c : String) (env : Env) (url : String) (uo : UrlObj)
    (yt : Option OEmbedData) (od : OEmbedData)
    (normOutcome : NormOutcome) (trigger : TriggerOutcome) (store : Store)
    (vid : String) (p : AIProviderTag) (kk : String)
    (hplat : parseVideoUrl (some uo) = some .tiktok) (hurl : url ≠ "")
    (hsu : jsTruthy env.supabaseUrl = true) (hsk : jsTruthy env.supabaseServiceKey = true)
    (hvid : od.embed_product_id = some vid) (hvne : vid ≠ "")
    (hmiss : Store.get store vid = none)
    (hcap : extractCaption od = some c)
    (hprov : getAIProvider env .tiktok = .ok (p, kk))
    (ht : jsTruthy env.apifyToken = true) (ha : jsTruthy env.apifyActorId = true)
    (hw : jsTruthy env.webhookSecret = true) :
    (shouldNormalizeFromCaption (some c) = true ↔ recipeGateSpec c) ∧
    (recipeGateSpec c →
      (extract env "POST" url false (some uo) yt (some od) normOutcome trigger
        store).providerCalls = [p]) ∧
    (¬ recipeGateSpec c →
      (extract env "POST" url false (some uo) yt (some od) normOutcome trigger
          store).providerCalls = [] ∧
      (extract env "POST" url false (some uo) yt (some od) normOutcome trigger
          store).apifyAttempts = 1) := by
  have hiff : shouldNormalizeFromCaption (some c) = true ↔ recipeGateSpec c := by
    by_cases hc : c = ""
    · subst hc
      decide
    · simp only [shouldNormalizeFromCaption, if_neg hc, looksLikeRecipe]
      by_cases hlen : (jsTrim c).data.length < MIN_RECIPE_CAPTION_LENGTH
      · rw [if_pos hlen]
        simp only [Bool.false_eq_true, false_iff]
        rintro ⟨h1, _⟩
        omega
      · rw [if_neg hlen]
        simp only [decide_eq_true_eq]
        unfold recipeGateSpec
        constructor
        · intro h
          exact ⟨by omega, h⟩
        · intro h
          exact h.2
  rw [extract_tiktok_reduce env url false uo yt od normOutcome trigger store
    hplat hurl hsu hsk]
  have hfresh : extractTikTok env url false od normOutcome trigger store =
      extractTikTokFresh env url vid od normOutcome trigger store := by
    simp [extractTikTok, hvid, hvne, hmiss]
  rw [hfresh]
  refine ⟨hiff, ?_, ?_⟩
  · intro hspec
    have hgate : (extractCaption od).isSome = true ∧
        shouldNormalizeFromCaption (extractCaption od) = true := by
      rw [hcap]
      exact ⟨rfl, hiff.mpr hspec⟩
    simp only [extractTikTokFresh, if_pos hgate]
    cases normOutcome with
    | ok r m ms => simp [normalizeRecipeM, hprov]
    | fail msg =>
        simp only [normalizeRecipeM, hprov]
        have h1 := extractApifyPath_attempts env url vid od (extractCaption od)
          trigger store [p] ⟨ht, ha, hw⟩
        exact h1.2
  · intro hspec
    have hgate : ¬ ((extractCaption od).isSome = true ∧
        shouldNormalizeFromCaption (extractCaption od) = true) := by
      rw [hcap]
      rintro ⟨-, h2⟩
      exact hspec (hiff.mp h2)
    simp only [extractTikTokFresh, if_neg hgate]
    have h1 := extractApifyPath_attempts env url vid od (extractCaption od)
      trigger store [] ⟨ht, ha, hw⟩
    exact ⟨h1.2, h1.1⟩

/-- C5 witness: concrete rich caption accepted by the gate and routed to the
OpenAI fast path on a fresh request. -/
theorem claim_C5_recipe_gate_witness :
    (shouldNormalizeFromCaption (some richCaption) = true ↔ recipeGateSpec richCaption) ∧
    (recipeGateSpec richCaption →
      (extract sampleEnv "POST" tkUrlString false (some tkUrlObj) none (some tkOembedRich)
        (.ok sampleRecipe ("gpt-4o-mini") 5) (.ok ("run1")) []).providerCalls = [.openai]) ∧
    (¬ recipeGateSpec richCaption →
      (extract sampleEnv "POST" tkUrlString false (some tkUrlObj) none (some tkOembedRich)
          (.ok sampleRecipe ("gpt-4o-mini") 5) (.ok ("run1")) []).providerCalls = [] ∧
      (extract sampleEnv "POST" tkUrlString false (some tkUrlObj) none (some tkOembedRich)
          (.ok sampleRecipe ("gpt-4o-mini") 5) (.ok ("run1")) []).apifyAttempts = 1) :=
  claim_C5_recipe_gate richCaption sampleEnv tkUrlString tkUrlObj none tkOembedRich
    (.ok sampleRecipe ("gpt-4o-mini") 5) (.ok ("run1")) [] "v1" .openai "openai-key"
    (by decide) (by decide) (by decide) (by decide) (by decide) (by decide) (by decide)
    (by decide) rfl (by decide) (by decide) (by decide)
